import Mathlib

/-!
Verification of the favicon generator script
(`packages/react-ui/scripts/generate-favicons.py`).

The script is a straight-line pipeline: an import guard for the two
third-party libraries (cairosvg, Pillow), module-level path resolution and
output-directory creation, then `main` checks that the source SVG exists,
rasterizes a fixed 9-entry size table to PNGs, and packs three of those PNGs
into a multi-size ICO file.

The shallow embedding below models:
  * paths as lists of segments (`Path(__file__).parent` is `dropLast`,
    the `/` operator joins after splitting on "/");
  * the filesystem as an association list of (path, file data) plus a list
    of created directories;
  * the SVG rasterizer (`cairosvg.svg2png`) as an arbitrary function from
    (svg content, output width, output height) to an optional PNG byte
    string, `none` standing for a raised exception;
  * the Pillow ICO save as a constructor recording the base image, the
    `sizes` hints, and the appended frames;
  * one run of the script (module-level code followed by `main`) as a pure
    function returning the event trace, the printed lines, the exit code
    and the final filesystem.
-/

namespace FaviconGen

/-- A filesystem path, as a list of segments relative to the repository
checkout root. -/
abbrev FPath := List String

/-- Split a string into its slash-separated segments. -/
def splitSlash (s : String) : List String :=
  (s.data.splitOn '/').map String.mk

/-- Python `pathlib`'s `/` operator: joining a path with a slash-separated
string appends the string's segments. -/
def pathJoin (p : FPath) (s : String) : FPath :=
  p ++ splitSlash s

/-- Render a path the way an f-string renders a `pathlib.Path`. -/
def pathStr (p : FPath) : String :=
  String.intercalate "/" p

/-- Location of the script inside the repository:
`packages/react-ui/scripts/generate-favicons.py`. -/
def SCRIPT_FILE : FPath := ["packages", "react-ui", "scripts", "generate-favicons.py"]

/-- `SCRIPT_DIR = Path(__file__).parent`. -/
def SCRIPT_DIR : FPath := SCRIPT_FILE.dropLast

/-- `PROJECT_ROOT = SCRIPT_DIR.parent`. -/
def PROJECT_ROOT : FPath := SCRIPT_DIR.dropLast

/-- `SVG_PATH = PROJECT_ROOT / "packages/react-ui/public/favicons/favicon.svg"`. -/
def SVG_PATH : FPath := pathJoin PROJECT_ROOT "packages/react-ui/public/favicons/favicon.svg"

/-- `FAVICON_DIR = PROJECT_ROOT / "packages/react-ui/public/favicons"`. -/
def FAVICON_DIR : FPath := pathJoin PROJECT_ROOT "packages/react-ui/public/favicons"

/-- Contents of a file on disk: either plain bytes (SVG sources, PNGs), or
an ICO container as written by Pillow's `save(format='ICO', sizes=...,
append_images=...)`: the base image's bytes, the size hints, and the
appended frames' bytes. -/
inductive FileData where
  | bytes (s : String)
  | ico (base : String) (sizes : List (Nat × Nat)) (frames : List String)
deriving DecidableEq, Repr

/-- `Image.open` / `cairosvg`'s view of a file: its raw bytes. -/
def FileData.toBytes : FileData → String
  | .bytes s => s
  | .ico b _ _ => b

/-- The filesystem: an association list of files (later writes shadow
earlier ones) and the set of created directories. -/
structure FS where
  files : List (FPath × FileData)
  dirs : List FPath
deriving DecidableEq, Repr

/-- Read a file's content, `none` if absent. -/
def FS.read (fs : FS) (p : FPath) : Option FileData :=
  (fs.files.find? (fun e => e.1 = p)).map (·.2)

/-- Write (create or overwrite) a file. -/
def FS.write (fs : FS) (p : FPath) (d : FileData) : FS :=
  ⟨(p, d) :: fs.files, fs.dirs⟩

/-- `Path.exists()` on a file path. -/
def FS.existsFile (fs : FS) (p : FPath) : Bool :=
  (fs.read p).isSome

/-- `mkdir(parents=True, exist_ok=True)`. -/
def FS.mkdirP (fs : FS) (p : FPath) : FS :=
  ⟨fs.files, p :: fs.dirs⟩

/-- The empty filesystem. -/
def FS.empty : FS := ⟨[], []⟩

/-- The `PNG_SIZES` table: output filename → target pixel size, in
insertion order. -/
def PNG_SIZES : List (String × Nat) :=
  [ ("favicon-16x16.png", 16),
    ("favicon-32x32.png", 32),
    ("favicon-48x48.png", 48),
    ("favicon-64x64.png", 64),
    ("favicon-96x96.png", 96),
    ("favicon-128x128.png", 128),
    ("apple-touch-icon.png", 180),
    ("android-chrome-192x192.png", 192),
    ("android-chrome-512x512.png", 512) ]

/-- The f-string `f"favicon-{size}x{size}.png"`. -/
def pngName (size : Nat) : String := s!"favicon-{size}x{size}.png"

/-- The external SVG rasterizer (`cairosvg.svg2png`): a function of the SVG
content and the requested output width and height, `none` modelling a
raised exception. -/
abbrev Ras := String → Nat → Nat → Option String

/-- `svg_to_png(svg_path, png_path, size)`: print a progress line, then ask
the rasterizer for a `size`×`size` raster of the SVG at `svg_path` and write
it to `png_path`.  Returns the printed lines and the resulting filesystem,
`none` when the rasterizer (or the read of the SVG) raised. -/
def svg_to_png (ras : Ras) (fs : FS) (svg_path png_path : FPath) (size : Nat) :
    List String × Option FS :=
  let name := (png_path.getLast?).getD ""
  (⟨[s!"Generating {name} ({size}x{size})..."],
    match fs.read svg_path with
    | none => none
    | some d =>
      match ras d.toBytes size size with
      | none => none
      | some png => some (fs.write png_path (.bytes png))⟩)

/-- Result of the rasterization loop of `main`: the events, the printed
lines, the filesystem, and whether every entry succeeded (`false` models an
exception propagating out of the loop). -/
structure RasterResult where
  events : List (String × Nat)
  output : List String
  fs : FS
  ok : Bool
deriving DecidableEq, Repr

/-- The `for filename, size in PNG_SIZES.items()` loop of `main`:
rasterize each entry in order into `dir`, stopping at the first failure
(fail-fast: an exception aborts the loop, earlier writes stay). -/
def rasterAll (ras : Ras) (svg_path dir : FPath) :
    List (String × Nat) → FS → RasterResult
  | [], fs => ⟨[], [], fs, true⟩
  | (name, size) :: rest, fs =>
    let step := svg_to_png ras fs svg_path (dir ++ [name]) size
    match step.2 with
    | none => ⟨[(name, size)], step.1, fs, false⟩
    | some fs' =>
      let rr := rasterAll ras svg_path dir rest fs'
      ⟨(name, size) :: rr.events, step.1 ++ rr.output, rr.fs, rr.ok⟩

/-- The images loaded by `create_ico`: for each size in `[16, 32, 48]`, in
that order, the PNG `favicon-{size}x{size}.png` in `FAVICON_DIR` if it
exists. -/
def icoImages (fs : FS) : List String :=
  [16, 32, 48].filterMap (fun size => (fs.read (FAVICON_DIR ++ [pngName size])).map (·.toBytes))

/-- `create_ico(png_sizes_paths)`: load whichever of the three fixed PNGs
exist; if any were loaded, save the first as `favicon.ico` with the fixed
size hints and the rest appended as frames; otherwise print a warning and
write nothing.  Returns the printed lines and the resulting filesystem. -/
def create_ico ( png_sizes_paths : List (String × Nat)) (fs : FS) : List String × FS :=
  let ico_path := FAVICON_DIR ++ ["favicon.ico"]
  match icoImages fs with
  | [] =>
    (["Generating favicon.ico...",
      "Warning: Could not create ICO file - missing required PNG sizes"], fs)
  | img :: rest =>
    (["Generating favicon.ico...", "Created favicon.ico"],
     fs.write ico_path (.ico img [(16, 16), (32, 32), (48, 48)] rest))

/-- The observable steps of a run, in the order they happen. -/
inductive Event where
  | libCheck
  | mkdirOut
  | svgCheck
  | rasterize (filename : String) (size : Nat)
  | icoAssemble
  | report
deriving DecidableEq, Repr

/-- Outcome of one run of the script: the event trace, the printed lines,
the process exit code, and the final filesystem. -/
structure RunResult where
  events : List Event
  output : List String
  exit : Nat
  fs : FS
deriving DecidableEq, Repr

/-- One run of the script: the module-level import guard and
`FAVICON_DIR.mkdir`, then `main()`.  `libsOk` is whether `cairosvg` and
`PIL` import successfully; `ras` is the rasterizer; `fs0` the initial
filesystem.  An uncaught exception from the rasterizer exits with code 1
(CPython's exit code for an uncaught exception), as does `sys.exit(1)`. -/
def script (libsOk : Bool) (ras : Ras) (fs0 : FS) : RunResult :=
  if !libsOk then
    { events := [.libCheck],
      output := ["Required packages not found. Please install:",
                 "  pip install cairosvg pillow"],
      exit := 1, fs := fs0 }
  else
    let fs1 := fs0.mkdirP FAVICON_DIR
    if !(fs1.existsFile SVG_PATH) then
      { events := [.libCheck, .mkdirOut, .svgCheck],
        output := ["Error: SVG source not found at " ++ pathStr SVG_PATH],
        exit := 1, fs := fs1 }
    else
      let header := ["Using SVG source: " ++ pathStr SVG_PATH,
                     "Output directory: " ++ pathStr FAVICON_DIR, ""]
      let rr := rasterAll ras SVG_PATH FAVICON_DIR PNG_SIZES fs1
      if !rr.ok then
        { events := [.libCheck, .mkdirOut, .svgCheck] ++ rr.events.map (fun e => .rasterize e.1 e.2),
          output := header ++ rr.output, exit := 1, fs := rr.fs }
      else
        let ico := create_ico PNG_SIZES rr.fs
        { events := [.libCheck, .mkdirOut, .svgCheck]
                      ++ rr.events.map (fun e => .rasterize e.1 e.2)
                      ++ [.icoAssemble, .report],
          output := header ++ rr.output ++ ico.1
                      ++ ["\n✅ Favicon generation complete!",
                          "Files created in: " ++ pathStr FAVICON_DIR],
          exit := 0, fs := ico.2 }

/-- The probe order of `create_ico`: the first size in `[16, 32, 48]` whose
PNG exists. -/
def firstIcoSize (fs : FS) : Option Nat :=
  [16, 32, 48].find? (fun s => fs.existsFile (FAVICON_DIR ++ [pngName s]))

/-- A concrete rasterizer that succeeds on every request. -/
def rasGood : Ras := fun svg w h => some (svg ++ "@" ++ toString w ++ "x" ++ toString h)

/-- A concrete rasterizer that raises exactly on width 48. -/
def rasBad48 : Ras := fun svg w h => if w = 48 then none else some (svg ++ "@" ++ toString w ++ "x" ++ toString h)

/-- A concrete initial filesystem holding just the source SVG. -/
def fsW : FS := FS.empty.write SVG_PATH (.bytes "SVG")

/-- A concrete filesystem holding only the 32-pixel favicon PNG. -/
def fsIcoW : FS := FS.empty.write (FAVICON_DIR ++ [pngName 32]) (.bytes "B32")

/-- `fsIcoW` plus an unrelated file, agreeing with it on the three favicon
PNG paths. -/
def fsIcoW2 : FS := fsIcoW.write ["other.txt"] (.bytes "X")

/-- A concrete filesystem holding only the 48-pixel favicon PNG. -/
def fsIcoW48 : FS := FS.empty.write (FAVICON_DIR ++ [pngName 48]) (.bytes "B48")

/-! ### Basic filesystem lemmas -/

theorem FS.read_write_self (fs : FS) (p : FPath) (d : FileData) :
    (fs.write p d).read p = some d := by
  simp [FS.read, FS.write, List.find?]

theorem FS.read_write_ne (fs : FS) (p q : FPath) (d : FileData) (h : p ≠ q) :
    (fs.write p d).read q = fs.read q := by
  simp [FS.read, FS.write, List.find?, h]

theorem FS.read_mkdirP (fs : FS) (p q : FPath) :
    (fs.mkdirP p).read q = fs.read q := rfl

/-! ### Lemmas about `svg_to_png` -/

theorem svg_to_png_snd_noread (ras : Ras) (fs : FS) (sp pp : FPath) (size : Nat)
    (h : fs.read sp = none) :
    (svg_to_png ras fs sp pp size).2 = none := by
  simp [svg_to_png, h]

theorem svg_to_png_snd_fail (ras : Ras) (fs : FS) (sp pp : FPath) (size : Nat)
    (d : FileData) (hd : fs.read sp = some d)
    (hras : ras d.toBytes size size = none) :
    (svg_to_png ras fs sp pp size).2 = none := by
  simp [svg_to_png, hd, hras]

theorem svg_to_png_snd_some (ras : Ras) (fs : FS) (sp pp : FPath) (size : Nat)
    (d : FileData) (png : String) (hd : fs.read sp = some d)
    (hras : ras d.toBytes size size = some png) :
    (svg_to_png ras fs sp pp size).2 = some (fs.write pp (.bytes png)) := by
  simp [svg_to_png, hd, hras]

/-! ### Lemmas about the rasterization loop -/

theorem rasterAll_cons_fail (ras : Ras) (sp dir : FPath) (name : String) (size : Nat)
    (rest : List (String × Nat)) (fs : FS)
    (h : (svg_to_png ras fs sp (dir ++ [name]) size).2 = none) :
    rasterAll ras sp dir ((name, size) :: rest) fs
      = ⟨[(name, size)], (svg_to_png ras fs sp (dir ++ [name]) size).1, fs, false⟩ := by
  simp only [rasterAll]
  rw [h]

theorem rasterAll_cons_ok (ras : Ras) (sp dir : FPath) (name : String) (size : Nat)
    (rest : List (String × Nat)) (fs fs' : FS)
    (h : (svg_to_png ras fs sp (dir ++ [name]) size).2 = some fs') :
    rasterAll ras sp dir ((name, size) :: rest) fs
      = ⟨(name, size) :: (rasterAll ras sp dir rest fs').events,
         (svg_to_png ras fs sp (dir ++ [name]) size).1 ++ (rasterAll ras sp dir rest fs').output,
         (rasterAll ras sp dir rest fs').fs,
         (rasterAll ras sp dir rest fs').ok⟩ := by
  simp only [rasterAll]
  rw [h]

/-- Paths that are not a target of any entry are untouched by the loop,
whether it succeeds or fails. -/
theorem rasterAll_read_notin (ras : Ras) (sp dir : FPath)
    (entries : List (String × Nat)) (fs : FS) (p : FPath)
    (hp : ∀ e ∈ entries, dir ++ [e.1] ≠ p) :
    (rasterAll ras sp dir entries fs).fs.read p = fs.read p := by
  induction entries generalizing fs with
  | nil => rfl
  | cons e rest ih =>
    obtain ⟨name, size⟩ := e
    cases hread : fs.read sp with
    | none =>
      rw [rasterAll_cons_fail ras sp dir name size rest fs
        (svg_to_png_snd_noread ras fs sp (dir ++ [name]) size hread)]
    | some d =>
      cases hras : ras d.toBytes size size with
      | none =>
        rw [rasterAll_cons_fail ras sp dir name size rest fs
          (svg_to_png_snd_fail ras fs sp (dir ++ [name]) size d hread hras)]
      | some png =>
        rw [rasterAll_cons_ok ras sp dir name size rest fs _
          (svg_to_png_snd_some ras fs sp (dir ++ [name]) size d png hread hras)]
        have h1 : ∀ e ∈ rest, dir ++ [e.1] ≠ p := fun e he => hp e (List.mem_cons_of_mem _ he)
        rw [ih _ h1]
        exact FS.read_write_ne fs (dir ++ [name]) p (.bytes png)
          (hp (name, size) (List.mem_cons_self _ _))

/-- If the loop succeeded, it processed every entry in order. -/
theorem rasterAll_ok_events (ras : Ras) (sp dir : FPath)
    (entries : List (String × Nat)) (fs : FS)
    (hok : (rasterAll ras sp dir entries fs).ok = true) :
    (rasterAll ras sp dir entries fs).events = entries := by
  induction entries generalizing fs with
  | nil => rfl
  | cons e rest ih =>
    obtain ⟨name, size⟩ := e
    cases hread : fs.read sp with
    | none =>
      rw [rasterAll_cons_fail ras sp dir name size rest fs
        (svg_to_png_snd_noread ras fs sp (dir ++ [name]) size hread)] at hok
      exact absurd hok (by simp)
    | some d =>
      cases hras : ras d.toBytes size size with
      | none =>
        rw [rasterAll_cons_fail ras sp dir name size rest fs
          (svg_to_png_snd_fail ras fs sp (dir ++ [name]) size d hread hras)] at hok
        exact absurd hok (by simp)
      | some png =>
        have hsome := svg_to_png_snd_some ras fs sp (dir ++ [name]) size d png hread hras
        rw [rasterAll_cons_ok ras sp dir name size rest fs _ hsome] at hok
        rw [rasterAll_cons_ok ras sp dir name size rest fs _ hsome]
        simp only at hok ⊢
        rw [ih _ hok]

/-- When the SVG is readable and every entry's rasterization succeeds, the
loop succeeds. -/
theorem rasterAll_ok_of_all_some (ras : Ras) (sp dir : FPath) (svg : String)
    (entries : List (String × Nat)) (fs : FS)
    (hne : ∀ e ∈ entries, dir ++ [e.1] ≠ sp)
    (hsvg : fs.read sp = some (.bytes svg))
    (hall : ∀ e ∈ entries, (ras svg e.2 e.2).isSome = true) :
    (rasterAll ras sp dir entries fs).ok = true := by
  induction entries generalizing fs with
  | nil => rfl
  | cons e rest ih =>
    obtain ⟨name, size⟩ := e
    obtain ⟨png, hpng⟩ := Option.isSome_iff_exists.mp (hall (name, size) (List.mem_cons_self _ _))
    have hsome := svg_to_png_snd_some ras fs sp (dir ++ [name]) size _ png hsvg hpng
    rw [rasterAll_cons_ok ras sp dir name size rest fs _ hsome]
    simp only
    have hsvg' : (fs.write (dir ++ [name]) (.bytes png)).read sp = some (.bytes svg) := by
      rw [FS.read_write_ne fs (dir ++ [name]) sp (.bytes png)
        (hne (name, size) (List.mem_cons_self _ _))]
      exact hsvg
    exact ih _ (fun e he => hne e (List.mem_cons_of_mem _ he)) hsvg'
      (fun e he => hall e (List.mem_cons_of_mem _ he))

/-- After a fully successful loop, each entry's target file holds exactly
the rasterizer's output for that entry's size. -/
theorem rasterAll_read_of_all_some (ras : Ras) (sp dir : FPath) (svg : String)
    (entries : List (String × Nat)) (fs : FS)
    (hne : ∀ e ∈ entries, dir ++ [e.1] ≠ sp)
    (hsvg : fs.read sp = some (.bytes svg))
    (hall : ∀ e ∈ entries, (ras svg e.2 e.2).isSome = true)
    (hnodup : (entries.map Prod.fst).Nodup) :
    ∀ e ∈ entries,
      (rasterAll ras sp dir entries fs).fs.read (dir ++ [e.1])
        = (ras svg e.2 e.2).map FileData.bytes := by
  induction entries generalizing fs with
  | nil => intro e he; exact absurd he (List.not_mem_nil e)
  | cons hd rest ih =>
    obtain ⟨name, size⟩ := hd
    obtain ⟨png, hpng⟩ := Option.isSome_iff_exists.mp (hall (name, size) (List.mem_cons_self _ _))
    have hsome := svg_to_png_snd_some ras fs sp (dir ++ [name]) size _ png hsvg hpng
    rw [rasterAll_cons_ok ras sp dir name size rest fs _ hsome]
    have hnotin : name ∉ rest.map Prod.fst := (List.nodup_cons.mp hnodup).1
    intro e he
    rcases List.mem_cons.mp he with heq | hrest
    · subst heq
      simp only
      have hp : ∀ e ∈ rest, dir ++ [e.1] ≠ dir ++ [name] := by
        intro e her hcontra
        exact hnotin (by
          have : e.1 = name := by
            have := List.append_cancel_left hcontra
            simpa using this
          rw [← this]
          exact List.mem_map_of_mem Prod.fst her)
      rw [rasterAll_read_notin ras sp dir rest _ _ hp]
      rw [FS.read_write_self, hpng]
      rfl
    · simp only
      have hsvg' : (fs.write (dir ++ [name]) (.bytes png)).read sp = some (.bytes svg) := by
        rw [FS.read_write_ne fs (dir ++ [name]) sp (.bytes png)
          (hne (name, size) (List.mem_cons_self _ _))]
        exact hsvg
      exact ih _ (fun e he => hne e (List.mem_cons_of_mem _ he)) hsvg'
        (fun e he => hall e (List.mem_cons_of_mem _ he))
        (List.nodup_cons.mp hnodup).2 e hrest

/-- Fail-fast behaviour of the loop: if the rasterizer succeeds on the
entries before index `k` and raises at index `k`, the loop stops right
after entry `k`, the files of entries before `k` hold the rasterizer's
outputs, and the files of entry `k` and all later entries are untouched. -/
theorem rasterAll_fail_spec (ras : Ras) (sp dir : FPath) (svg : String)
    (entries : List (String × Nat)) (fs : FS) (k : Nat) (hk : k < entries.length)
    (hne : ∀ e ∈ entries, dir ++ [e.1] ≠ sp)
    (hsvg : fs.read sp = some (.bytes svg))
    (hnodup : (entries.map Prod.fst).Nodup)
    (hok : ∀ j (hj : j < entries.length), j < k →
      (ras svg (entries.get ⟨j, hj⟩).2 (entries.get ⟨j, hj⟩).2).isSome = true)
    (hfail : ras svg (entries.get ⟨k, hk⟩).2 (entries.get ⟨k, hk⟩).2 = none) :
    (rasterAll ras sp dir entries fs).ok = false
    ∧ (rasterAll ras sp dir entries fs).events = entries.take (k + 1)
    ∧ (∀ j (hj : j < entries.length), j < k →
        (rasterAll ras sp dir entries fs).fs.read (dir ++ [(entries.get ⟨j, hj⟩).1])
          = (ras svg (entries.get ⟨j, hj⟩).2 (entries.get ⟨j, hj⟩).2).map FileData.bytes)
    ∧ (∀ j (hj : j < entries.length), k ≤ j →
        (rasterAll ras sp dir entries fs).fs.read (dir ++ [(entries.get ⟨j, hj⟩).1])
          = fs.read (dir ++ [(entries.get ⟨j, hj⟩).1])) := by
  induction entries generalizing fs k with
  | nil => exact absurd hk (Nat.not_lt_zero k)
  | cons hd rest ih =>
    obtain ⟨name, size⟩ := hd
    cases k with
    | zero =>
      have hfail0 : ras svg size size = none := by
        simpa using hfail
      have hsome := svg_to_png_snd_fail ras fs sp (dir ++ [name]) size _ hsvg
        (by simpa using hfail0)
      rw [rasterAll_cons_fail ras sp dir name size rest fs hsome]
      refine ⟨rfl, rfl, ?_, ?_⟩
      · intro j hj hj0
        exact absurd hj0 (Nat.not_lt_zero j)
      · intro j hj hjk
        rfl
    | succ k' =>
      have h0 : (0 : Nat) < ((name, size) :: rest).length := Nat.succ_pos _
      have hhd : (ras svg size size).isSome = true := by
        simpa using hok 0 h0 (Nat.succ_pos k')
      obtain ⟨png, hpng⟩ := Option.isSome_iff_exists.mp hhd
      have hsome := svg_to_png_snd_some ras fs sp (dir ++ [name]) size _ png hsvg
        (by simpa using hpng)
      rw [rasterAll_cons_ok ras sp dir name size rest fs _ hsome]
      have hnotin : name ∉ rest.map Prod.fst := (List.nodup_cons.mp hnodup).1
      have hne' : ∀ e ∈ rest, dir ++ [e.1] ≠ sp :=
        fun e he => hne e (List.mem_cons_of_mem _ he)
      have hsvg' : (fs.write (dir ++ [name]) (.bytes png)).read sp = some (.bytes svg) := by
        rw [FS.read_write_ne fs (dir ++ [name]) sp (.bytes png)
          (hne (name, size) (List.mem_cons_self _ _))]
        exact hsvg
      have hk' : k' < rest.length := by
        simpa using Nat.lt_of_succ_lt_succ hk
      have hok' : ∀ j (hj : j < rest.length), j < k' →
          (ras svg (rest.get ⟨j, hj⟩).2 (rest.get ⟨j, hj⟩).2).isSome = true := by
        intro j hj hjk
        have hj1 : j + 1 < ((name, size) :: rest).length := by
          simpa using Nat.succ_lt_succ hj
        simpa using hok (j + 1) hj1 (Nat.succ_lt_succ hjk)
      have hfail' : ras svg (rest.get ⟨k', hk'⟩).2 (rest.get ⟨k', hk'⟩).2 = none := by
        simpa using hfail
      obtain ⟨ihok, ihev, ihlt, ihge⟩ := ih _ k' hk' hne' hsvg'
        (List.nodup_cons.mp hnodup).2 hok' hfail'
      have hp : ∀ e ∈ rest, dir ++ [e.1] ≠ dir ++ [name] := by
        intro e her hcontra
        exact hnotin (by
          have heq : e.1 = name := by
            simpa using List.append_cancel_left hcontra
          rw [← heq]
          exact List.mem_map_of_mem Prod.fst her)
      refine ⟨ihok, ?_, ?_, ?_⟩
      · simp only [ihev, List.take_succ_cons]
      · intro j hj hjk
        cases j with
        | zero =>
          have goal0 : (rasterAll ras sp dir rest (fs.write (dir ++ [name]) (.bytes png))).fs.read
              (dir ++ [name]) = Option.map FileData.bytes (ras svg size size) := by
            rw [rasterAll_read_notin ras sp dir rest _ _ hp, FS.read_write_self, hpng]
            rfl
          exact goal0
        | succ j' =>
          have hj' : j' < rest.length := by
            simpa using Nat.lt_of_succ_lt_succ hj
          have := ihlt j' hj' (Nat.lt_of_succ_lt_succ hjk)
          simpa using this
      · intro j hj hjk
        cases j with
        | zero => exact absurd hjk (Nat.not_succ_le_zero k')
        | succ j' =>
          have hj' : j' < rest.length := by
            simpa using Nat.lt_of_succ_lt_succ hj
          have h1 := ihge j' hj' (Nat.le_of_succ_le_succ hjk)
          have h2 : (fs.write (dir ++ [name]) (.bytes png)).read
              (dir ++ [(rest.get ⟨j', hj'⟩).1])
              = fs.read (dir ++ [(rest.get ⟨j', hj'⟩).1]) :=
            FS.read_write_ne fs _ _ _
              (fun hcontra => hp _ (List.get_mem rest j' hj') hcontra.symm)
          exact h1.trans h2

/-! ### Lemmas about `create_ico` -/

theorem create_ico_nil (a : List (String × Nat)) (fs : FS) (h : icoImages fs = []) :
    create_ico a fs
      = (["Generating favicon.ico...",
          "Warning: Could not create ICO file - missing required PNG sizes"], fs) := by
  simp [create_ico, h]

theorem create_ico_cons (a : List (String × Nat)) (fs : FS) (img : String)
    (rest : List String) (h : icoImages fs = img :: rest) :
    create_ico a fs
      = (["Generating favicon.ico...", "Created favicon.ico"],
         fs.write (FAVICON_DIR ++ ["favicon.ico"])
           (.ico img [(16, 16), (32, 32), (48, 48)] rest)) := by
  simp [create_ico, h]

theorem create_ico_read_ne (a : List (String × Nat)) (fs : FS) (p : FPath)
    (h : p ≠ FAVICON_DIR ++ ["favicon.ico"]) :
    (create_ico a fs).2.read p = fs.read p := by
  cases hi : icoImages fs with
  | nil => rw [create_ico_nil a fs hi]
  | cons img rest =>
    rw [create_ico_cons a fs img rest hi]
    exact FS.read_write_ne fs _ _ _ (Ne.symm h)

theorem icoImages_eq_nil_iff (fs : FS) :
    icoImages fs = [] ↔ ∀ s ∈ [16, 32, 48], fs.read (FAVICON_DIR ++ [pngName s]) = none := by
  constructor
  · intro h s hs
    have := List.filterMap_eq_nil_iff.mp h s hs
    cases hr : fs.read (FAVICON_DIR ++ [pngName s]) with
    | none => rfl
    | some d => rw [hr] at this; exact absurd this (by simp)
  · intro h
    apply List.filterMap_eq_nil_iff.mpr
    intro s hs
    rw [h s hs]
    rfl

/-! ### Unfolding lemmas for one run of the script -/

theorem script_libfail (ras : Ras) (fs0 : FS) :
    script false ras fs0
      = { events := [.libCheck],
          output := ["Required packages not found. Please install:",
                     "  pip install cairosvg pillow"],
          exit := 1, fs := fs0 } := rfl

theorem script_nosvg (ras : Ras) (fs0 : FS)
    (h : (fs0.mkdirP FAVICON_DIR).existsFile SVG_PATH = false) :
    script true ras fs0
      = { events := [.libCheck, .mkdirOut, .svgCheck],
          output := ["Error: SVG source not found at " ++ pathStr SVG_PATH],
          exit := 1, fs := fs0.mkdirP FAVICON_DIR } := by
  simp [script, h]

theorem script_rasfail_exit (ras : Ras) (fs0 : FS)
    (hex : (fs0.mkdirP FAVICON_DIR).existsFile SVG_PATH = true)
    (hnok : (rasterAll ras SVG_PATH FAVICON_DIR PNG_SIZES (fs0.mkdirP FAVICON_DIR)).ok = false) :
    (script true ras fs0).exit = 1 := by
  simp [script, hex, hnok]

theorem script_rasfail_events (ras : Ras) (fs0 : FS)
    (hex : (fs0.mkdirP FAVICON_DIR).existsFile SVG_PATH = true)
    (hnok : (rasterAll ras SVG_PATH FAVICON_DIR PNG_SIZES (fs0.mkdirP FAVICON_DIR)).ok = false) :
    (script true ras fs0).events
      = [.libCheck, .mkdirOut, .svgCheck]
          ++ (rasterAll ras SVG_PATH FAVICON_DIR PNG_SIZES (fs0.mkdirP FAVICON_DIR)).events.map
               (fun e => .rasterize e.1 e.2) := by
  simp [script, hex, hnok]

theorem script_rasfail_fs (ras : Ras) (fs0 : FS)
    (hex : (fs0.mkdirP FAVICON_DIR).existsFile SVG_PATH = true)
    (hnok : (rasterAll ras SVG_PATH FAVICON_DIR PNG_SIZES (fs0.mkdirP FAVICON_DIR)).ok = false) :
    (script true ras fs0).fs
      = (rasterAll ras SVG_PATH FAVICON_DIR PNG_SIZES (fs0.mkdirP FAVICON_DIR)).fs := by
  simp [script, hex, hnok]

theorem script_success_exit (ras : Ras) (fs0 : FS)
    (hex : (fs0.mkdirP FAVICON_DIR).existsFile SVG_PATH = true)
    (hok : (rasterAll ras SVG_PATH FAVICON_DIR PNG_SIZES (fs0.mkdirP FAVICON_DIR)).ok = true) :
    (script true ras fs0).exit = 0 := by
  simp [script, hex, hok]

theorem script_success_events (ras : Ras) (fs0 : FS)
    (hex : (fs0.mkdirP FAVICON_DIR).existsFile SVG_PATH = true)
    (hok : (rasterAll ras SVG_PATH FAVICON_DIR PNG_SIZES (fs0.mkdirP FAVICON_DIR)).ok = true) :
    (script true ras fs0).events
      = [.libCheck, .mkdirOut, .svgCheck]
          ++ (rasterAll ras SVG_PATH FAVICON_DIR PNG_SIZES (fs0.mkdirP FAVICON_DIR)).events.map
               (fun e => .rasterize e.1 e.2)
          ++ [.icoAssemble, .report] := by
  simp [script, hex, hok]

theorem script_success_fs (ras : Ras) (fs0 : FS)
    (hex : (fs0.mkdirP FAVICON_DIR).existsFile SVG_PATH = true)
    (hok : (rasterAll ras SVG_PATH FAVICON_DIR PNG_SIZES (fs0.mkdirP FAVICON_DIR)).ok = true) :
    (script true ras fs0).fs
      = (create_ico PNG_SIZES
          (rasterAll ras SVG_PATH FAVICON_DIR PNG_SIZES (fs0.mkdirP FAVICON_DIR)).fs).2 := by
  simp [script, hex, hok]

theorem FS.existsFile_eq_false_iff (fs : FS) (p : FPath) :
    fs.existsFile p = false ↔ fs.read p = none := by
  unfold FS.existsFile
  cases fs.read p <;> simp

theorem FS.existsFile_eq_true_iff (fs : FS) (p : FPath) :
    fs.existsFile p = true ↔ ∃ d, fs.read p = some d := by
  unfold FS.existsFile
  cases fs.read p <;> simp

/-- Summary of a fully successful run: exit code 0, the full linear trace,
and each table entry's file holding exactly the rasterizer's output. -/
theorem script_success_full (ras : Ras) (fs0 : FS) (svg : String)
    (hsvg : fs0.read SVG_PATH = some (.bytes svg))
    (hall : ∀ e ∈ PNG_SIZES, (ras svg e.2 e.2).isSome = true) :
    (script true ras fs0).exit = 0
    ∧ (script true ras fs0).events
        = [.libCheck, .mkdirOut, .svgCheck]
            ++ PNG_SIZES.map (fun e => Event.rasterize e.1 e.2)
            ++ [.icoAssemble, .report]
    ∧ ∀ e ∈ PNG_SIZES,
        (script true ras fs0).fs.read (FAVICON_DIR ++ [e.1])
          = (ras svg e.2 e.2).map FileData.bytes := by
  have hne : ∀ x ∈ PNG_SIZES, FAVICON_DIR ++ [x.1] ≠ SVG_PATH := by decide
  have hnodup : (PNG_SIZES.map Prod.fst).Nodup := by decide
  have hico : ∀ x ∈ PNG_SIZES, FAVICON_DIR ++ [x.1] ≠ FAVICON_DIR ++ ["favicon.ico"] := by
    decide
  have hsvg1 : (fs0.mkdirP FAVICON_DIR).read SVG_PATH = some (.bytes svg) := by
    rw [FS.read_mkdirP]
    exact hsvg
  have hex : (fs0.mkdirP FAVICON_DIR).existsFile SVG_PATH = true := by
    show ((fs0.mkdirP FAVICON_DIR).read SVG_PATH).isSome = true
    rw [hsvg1]
    rfl
  have hok := rasterAll_ok_of_all_some ras SVG_PATH FAVICON_DIR svg PNG_SIZES _ hne hsvg1 hall
  refine ⟨script_success_exit ras fs0 hex hok, ?_, ?_⟩
  · rw [script_success_events ras fs0 hex hok,
      rasterAll_ok_events ras SVG_PATH FAVICON_DIR PNG_SIZES _ hok]
  · intro e he
    rw [script_success_fs ras fs0 hex hok, create_ico_read_ne _ _ _ (hico e he)]
    exact rasterAll_read_of_all_some ras SVG_PATH FAVICON_DIR svg PNG_SIZES _ hne hsvg1
      hall hnodup e he

/-! ### The claims -/

/-- C1: if the source SVG path does not exist at the start of a run (with
the libraries importable), the process prints an error naming the expected
path, exits with status 1, writes zero output files (the file table is
unchanged: no PNG and no ICO), and the trace stops at the SVG check. -/
theorem C1_missing_svg_no_outputs (ras : Ras) (fs0 : FS)
    (h : fs0.read SVG_PATH = none) :
    (script true ras fs0).exit = 1
    ∧ (script true ras fs0).output
        = ["Error: SVG source not found at " ++ pathStr SVG_PATH]
    ∧ (script true ras fs0).fs.files = fs0.files
    ∧ (script true ras fs0).events = [.libCheck, .mkdirOut, .svgCheck] := by
  have hex : (fs0.mkdirP FAVICON_DIR).existsFile SVG_PATH = false := by
    show ((fs0.mkdirP FAVICON_DIR).read SVG_PATH).isSome = false
    rw [FS.read_mkdirP, h]
    rfl
  rw [script_nosvg ras fs0 hex]
  exact ⟨rfl, rfl, rfl, rfl⟩

/-- Witness for C1 at the empty filesystem. -/
theorem C1_missing_svg_no_outputs_witness :
    FS.empty.read SVG_PATH = none
    ∧ (script true rasGood FS.empty).exit = 1
    ∧ (script true rasGood FS.empty).fs.files = FS.empty.files :=
  ⟨rfl, (C1_missing_svg_no_outputs rasGood FS.empty rfl).1,
    (C1_missing_svg_no_outputs rasGood FS.empty rfl).2.2.1⟩

/-- C2: the claim says the resolved input path is
`<repo root>/packages/react-ui/public/favicons/favicon.svg`.  The code
computes `PROJECT_ROOT` as the script directory's parent, which is
`packages/react-ui`, not the repository root, so the resolved path doubles
to `packages/react-ui/packages/react-ui/public/favicons/favicon.svg` and
differs from the claimed path; on a checkout with the SVG at the claimed
(actual) location the run exits 1 without rasterizing anything. -/
theorem C2_svg_path_resolution :
    SVG_PATH = ["packages", "react-ui", "packages", "react-ui",
                "public", "favicons", "favicon.svg"]
    ∧ SVG_PATH ≠ ["packages", "react-ui", "public", "favicons", "favicon.svg"]
    ∧ FAVICON_DIR = ["packages", "react-ui", "packages", "react-ui", "public", "favicons"]
    ∧ (script true rasGood
        (FS.empty.write ["packages", "react-ui", "public", "favicons", "favicon.svg"]
          (.bytes "SVG"))).exit = 1
    ∧ (script true rasGood
        (FS.empty.write ["packages", "react-ui", "public", "favicons", "favicon.svg"]
          (.bytes "SVG"))).events = [.libCheck, .mkdirOut, .svgCheck] := by
  decide

/-- C3 counterexample: a concrete run (libraries importable, SVG absent)
in which the SVG existence check fails — exit 1, trace ends at the check —
yet the output directory has been created: `mkdirOut` precedes `svgCheck`
in the trace and `FAVICON_DIR` is in the directory list afterwards though
it was not before.  This refutes "the output directory is not created
before the SVG existence check passes". -/
theorem C3_dir_created_before_svg_check :
    (script true rasGood FS.empty).events = [.libCheck, .mkdirOut, .svgCheck]
    ∧ (script true rasGood FS.empty).exit = 1
    ∧ FAVICON_DIR ∈ (script true rasGood FS.empty).fs.dirs
    ∧ FS.empty.dirs = [] := by
  decide

/-- C3 (amended): the steps occur in the strict order: library import
check, then creation of the output directory, then the SVG existence
check, then rasterization of every table entry in table order, then ICO
assembly, then the completion report — on any fully successful run the
trace is exactly this sequence. -/
theorem C3_linear_order (libsOk : Bool) (ras : Ras) (fs0 : FS)
    (h : (script libsOk ras fs0).exit = 0) :
    (script libsOk ras fs0).events
      = [.libCheck, .mkdirOut, .svgCheck]
          ++ PNG_SIZES.map (fun e => Event.rasterize e.1 e.2)
          ++ [.icoAssemble, .report] := by
  cases libsOk with
  | false =>
    rw [script_libfail ras fs0] at h
    simp at h
  | true =>
    cases hex : (fs0.mkdirP FAVICON_DIR).existsFile SVG_PATH with
    | false =>
      rw [script_nosvg ras fs0 hex] at h
      simp at h
    | true =>
      cases hok : (rasterAll ras SVG_PATH FAVICON_DIR PNG_SIZES (fs0.mkdirP FAVICON_DIR)).ok with
      | false =>
        rw [script_rasfail_exit ras fs0 hex hok] at h
        simp at h
      | true =>
        rw [script_success_events ras fs0 hex hok,
          rasterAll_ok_events ras SVG_PATH FAVICON_DIR PNG_SIZES _ hok]

/-- Witness for the amended C3: a concrete fully successful run. -/
theorem C3_linear_order_witness :
    (script true rasGood fsW).exit = 0
    ∧ (script true rasGood fsW).events
        = [.libCheck, .mkdirOut, .svgCheck]
            ++ PNG_SIZES.map (fun e => Event.rasterize e.1 e.2)
            ++ [.icoAssemble, .report] :=
  ⟨by decide, C3_linear_order true rasGood fsW (by decide)⟩

/-- C4: the size table has exactly 9 entries with unique filename keys
mapping the fixed filenames to the sizes 16, 32, 48, 64, 96, 128, 180,
192, 512; and on a run that reaches the loop, every (filename, size) entry
leads to one rasterizer invocation with the source SVG content at exactly
size×size pixels whose output is written under that filename in the output
directory. -/
theorem C4_size_table_rasterization :
    PNG_SIZES.length = 9
    ∧ (PNG_SIZES.map Prod.fst).Nodup
    ∧ PNG_SIZES.map Prod.fst
        = ["favicon-16x16.png", "favicon-32x32.png", "favicon-48x48.png",
           "favicon-64x64.png", "favicon-96x96.png", "favicon-128x128.png",
           "apple-touch-icon.png", "android-chrome-192x192.png",
           "android-chrome-512x512.png"]
    ∧ PNG_SIZES.map Prod.snd = [16, 32, 48, 64, 96, 128, 180, 192, 512]
    ∧ ∀ (ras : Ras) (fs0 : FS) (svg : String),
        fs0.read SVG_PATH = some (.bytes svg) →
        (∀ e ∈ PNG_SIZES, (ras svg e.2 e.2).isSome = true) →
        ∀ e ∈ PNG_SIZES,
          Event.rasterize e.1 e.2 ∈ (script true ras fs0).events
          ∧ (script true ras fs0).fs.read (FAVICON_DIR ++ [e.1])
              = (ras svg e.2 e.2).map FileData.bytes := by
  refine ⟨by decide, by decide, by decide, by decide, ?_⟩
  intro ras fs0 svg hsvg hall e he
  obtain ⟨-, hev, hread⟩ := script_success_full ras fs0 svg hsvg hall
  constructor
  · rw [hev]
    simp only [List.mem_append, List.mem_map]
    exact Or.inl (Or.inr ⟨e, he, rfl⟩)
  · exact hread e he

/-- Witness for C4 on a concrete successful run, at the 16-pixel entry. -/
theorem C4_size_table_rasterization_witness :
    fsW.read SVG_PATH = some (.bytes "SVG")
    ∧ ("favicon-16x16.png", 16) ∈ PNG_SIZES
    ∧ Event.rasterize "favicon-16x16.png" 16 ∈ (script true rasGood fsW).events
    ∧ (script true rasGood fsW).fs.read (FAVICON_DIR ++ ["favicon-16x16.png"])
        = (rasGood "SVG" 16 16).map FileData.bytes :=
  ⟨rfl, by decide,
    (C4_size_table_rasterization.2.2.2.2 rasGood fsW "SVG" rfl (by decide)
      ("favicon-16x16.png", 16) (by decide)).1,
    (C4_size_table_rasterization.2.2.2.2 rasGood fsW "SVG" rfl (by decide)
      ("favicon-16x16.png", 16) (by decide)).2⟩

/-- C6: if the libraries are not importable the process prints the install
guidance and exits with code 1 leaving the filesystem entirely untouched
(no file I/O); and a fully successful run exits with code 0. -/
theorem C6_import_guard_exit_codes (ras : Ras) (fs0 : FS) (svg : String) :
    ((script false ras fs0).exit = 1
      ∧ (script false ras fs0).output
          = ["Required packages not found. Please install:",
             "  pip install cairosvg pillow"]
      ∧ (script false ras fs0).fs = fs0)
    ∧ (fs0.read SVG_PATH = some (.bytes svg) →
        (∀ e ∈ PNG_SIZES, (ras svg e.2 e.2).isSome = true) →
        (script true ras fs0).exit = 0) := by
  constructor
  · rw [script_libfail ras fs0]
    exact ⟨rfl, rfl, rfl⟩
  · intro hsvg hall
    exact (script_success_full ras fs0 svg hsvg hall).1

/-- Witness for C6: concrete failing-import and fully-successful runs. -/
theorem C6_import_guard_exit_codes_witness :
    fsW.read SVG_PATH = some (.bytes "SVG")
    ∧ (script false rasGood fsW).exit = 1
    ∧ (script true rasGood fsW).exit = 0 :=
  ⟨rfl, (C6_import_guard_exit_codes rasGood fsW "SVG").1.1,
    (C6_import_guard_exit_codes rasGood fsW "SVG").2 rfl (by decide)⟩

/-- C8: each generated PNG is a deterministic function of the source SVG
content and the target size alone: two runs over filesystems holding the
same SVG content produce identical PNG files, namely the rasterizer's
output for (svg, size, size). -/
theorem C8_deterministic_pngs (ras : Ras) (fs0 fs0' : FS) (svg : String)
    (h1 : fs0.read SVG_PATH = some (.bytes svg))
    (h2 : fs0'.read SVG_PATH = some (.bytes svg))
    (hall : ∀ e ∈ PNG_SIZES, (ras svg e.2 e.2).isSome = true) :
    ∀ e ∈ PNG_SIZES,
      (script true ras fs0).fs.read (FAVICON_DIR ++ [e.1])
        = (script true ras fs0').fs.read (FAVICON_DIR ++ [e.1])
      ∧ (script true ras fs0).fs.read (FAVICON_DIR ++ [e.1])
          = (ras svg e.2 e.2).map FileData.bytes := by
  intro e he
  have a1 := (script_success_full ras fs0 svg h1 hall).2.2 e he
  have a2 := (script_success_full ras fs0' svg h2 hall).2.2 e he
  exact ⟨a1.trans a2.symm, a1⟩

/-- Witness for C8: a second run on the filesystem produced by a first run
(the SVG unchanged) yields the same 16-pixel PNG. -/
theorem C8_deterministic_pngs_witness :
    fsW.read SVG_PATH = some (.bytes "SVG")
    ∧ (script true rasGood fsW).fs.read SVG_PATH = some (.bytes "SVG")
    ∧ (script true rasGood fsW).fs.read (FAVICON_DIR ++ ["favicon-16x16.png"])
        = (script true rasGood ((script true rasGood fsW).fs)).fs.read
            (FAVICON_DIR ++ ["favicon-16x16.png"]) :=
  ⟨rfl, by decide,
    (C8_deterministic_pngs rasGood fsW ((script true rasGood fsW).fs) "SVG" rfl
      (by decide) (by decide) ("favicon-16x16.png", 16) (by decide)).1⟩

/-- C7: if the rasterizer succeeds on the entries before index `k` of the
size table and raises on entry `k`, the run aborts immediately with a
non-zero exit: the trace stops right after entry `k`, the files written
for entries before `k` hold the rasterizer's outputs, the files of entry
`k` and all later entries are exactly as they were initially, and
`favicon.ico` is untouched. -/
theorem C7_failfast_aborts_run (ras : Ras) (fs0 : FS) (svg : String) (k : Nat)
    (hk : k < PNG_SIZES.length)
    (hsvg : fs0.read SVG_PATH = some (.bytes svg))
    (hok : ∀ j (hj : j < PNG_SIZES.length), j < k →
      (ras svg (PNG_SIZES.get ⟨j, hj⟩).2 (PNG_SIZES.get ⟨j, hj⟩).2).isSome = true)
    (hfail : ras svg (PNG_SIZES.get ⟨k, hk⟩).2 (PNG_SIZES.get ⟨k, hk⟩).2 = none) :
    (script true ras fs0).exit = 1
    ∧ (script true ras fs0).events
        = [.libCheck, .mkdirOut, .svgCheck]
            ++ (PNG_SIZES.take (k + 1)).map (fun e => Event.rasterize e.1 e.2)
    ∧ (∀ j (hj : j < PNG_SIZES.length), j < k →
        (script true ras fs0).fs.read (FAVICON_DIR ++ [(PNG_SIZES.get ⟨j, hj⟩).1])
          = (ras svg (PNG_SIZES.get ⟨j, hj⟩).2 (PNG_SIZES.get ⟨j, hj⟩).2).map FileData.bytes)
    ∧ (∀ j (hj : j < PNG_SIZES.length), k ≤ j →
        (script true ras fs0).fs.read (FAVICON_DIR ++ [(PNG_SIZES.get ⟨j, hj⟩).1])
          = fs0.read (FAVICON_DIR ++ [(PNG_SIZES.get ⟨j, hj⟩).1]))
    ∧ (script true ras fs0).fs.read (FAVICON_DIR ++ ["favicon.ico"])
        = fs0.read (FAVICON_DIR ++ ["favicon.ico"]) := by
  have hne : ∀ x ∈ PNG_SIZES, FAVICON_DIR ++ [x.1] ≠ SVG_PATH := by decide
  have hnodup : (PNG_SIZES.map Prod.fst).Nodup := by decide
  have hico : ∀ x ∈ PNG_SIZES, FAVICON_DIR ++ [x.1] ≠ FAVICON_DIR ++ ["favicon.ico"] := by
    decide
  have hsvg1 : (fs0.mkdirP FAVICON_DIR).read SVG_PATH = some (.bytes svg) := by
    rw [FS.read_mkdirP]
    exact hsvg
  have hex : (fs0.mkdirP FAVICON_DIR).existsFile SVG_PATH = true := by
    show ((fs0.mkdirP FAVICON_DIR).read SVG_PATH).isSome = true
    rw [hsvg1]
    rfl
  obtain ⟨fok, fev, flt, fge⟩ := rasterAll_fail_spec ras SVG_PATH FAVICON_DIR svg PNG_SIZES
    (fs0.mkdirP FAVICON_DIR) k hk hne hsvg1 hnodup hok hfail
  refine ⟨script_rasfail_exit ras fs0 hex fok, ?_, ?_, ?_, ?_⟩
  · rw [script_rasfail_events ras fs0 hex fok, fev]
  · intro j hj hjk
    rw [script_rasfail_fs ras fs0 hex fok]
    exact flt j hj hjk
  · intro j hj hjk
    rw [script_rasfail_fs ras fs0 hex fok, fge j hj hjk]
    exact FS.read_mkdirP fs0 _ _
  · rw [script_rasfail_fs ras fs0 hex fok,
      rasterAll_read_notin ras SVG_PATH FAVICON_DIR PNG_SIZES _ _ hico]
    exact FS.read_mkdirP fs0 _ _

/-- Witness for C7: a rasterizer that raises on width 48 (table index 2)
aborts the concrete run after three entries, leaving the 16-pixel PNG
written, the 64-pixel PNG absent and no ICO. -/
theorem C7_failfast_aborts_run_witness :
    (fsW.read SVG_PATH = some (.bytes "SVG")
      ∧ rasBad48 "SVG" 48 48 = none)
    ∧ (script true rasBad48 fsW).exit = 1
    ∧ (script true rasBad48 fsW).fs.read (FAVICON_DIR ++ ["favicon-16x16.png"])
        = (rasBad48 "SVG" 16 16).map FileData.bytes
    ∧ (script true rasBad48 fsW).fs.read (FAVICON_DIR ++ ["favicon-64x64.png"])
        = fsW.read (FAVICON_DIR ++ ["favicon-64x64.png"])
    ∧ (script true rasBad48 fsW).fs.read (FAVICON_DIR ++ ["favicon.ico"])
        = fsW.read (FAVICON_DIR ++ ["favicon.ico"]) :=
  ⟨⟨rfl, rfl⟩,
    (C7_failfast_aborts_run rasBad48 fsW "SVG" 2 (by decide) rfl (by decide) rfl).1,
    (C7_failfast_aborts_run rasBad48 fsW "SVG" 2 (by decide) rfl (by decide) rfl).2.2.1
      0 (by decide) (by decide),
    (C7_failfast_aborts_run rasBad48 fsW "SVG" 2 (by decide) rfl (by decide) rfl).2.2.2.1
      3 (by decide) (by decide),
    (C7_failfast_aborts_run rasBad48 fsW "SVG" 2 (by decide) rfl (by decide) rfl).2.2.2.2⟩

/-- C5: in the ICO assembly step, if at least one of the three fixed PNGs
exists, `favicon.ico` is written from the first loaded image with the full
size-hint list and the remaining loaded images as frames; if none exist,
nothing is written (an existing `favicon.ico` is left untouched) and a
warning is printed. -/
theorem C5_ico_assembly (a : List (String × Nat)) (fs : FS) :
    ((∃ s ∈ [16, 32, 48], fs.existsFile (FAVICON_DIR ++ [pngName s]) = true) →
      ∃ base rest, base :: rest = icoImages fs
        ∧ (create_ico a fs).2
            = fs.write (FAVICON_DIR ++ ["favicon.ico"])
                (.ico base [(16, 16), (32, 32), (48, 48)] rest)
        ∧ "Created favicon.ico" ∈ (create_ico a fs).1)
    ∧ ((∀ s ∈ [16, 32, 48], fs.existsFile (FAVICON_DIR ++ [pngName s]) = false) →
      (create_ico a fs).2 = fs
        ∧ (create_ico a fs).2.read (FAVICON_DIR ++ ["favicon.ico"])
            = fs.read (FAVICON_DIR ++ ["favicon.ico"])
        ∧ "Warning: Could not create ICO file - missing required PNG sizes"
            ∈ (create_ico a fs).1) := by
  constructor
  · rintro ⟨s, hs, hex⟩
    cases hi : icoImages fs with
    | nil =>
      exfalso
      have hnone := (icoImages_eq_nil_iff fs).mp hi s hs
      rw [(FS.existsFile_eq_false_iff fs _).mpr hnone] at hex
      exact Bool.false_ne_true hex
    | cons img rest =>
      refine ⟨img, rest, rfl, ?_, ?_⟩
      · rw [create_ico_cons a fs img rest hi]
      · rw [create_ico_cons a fs img rest hi]
        simp
  · intro h
    have hi : icoImages fs = [] :=
      (icoImages_eq_nil_iff fs).mpr
        (fun s hs => (FS.existsFile_eq_false_iff fs _).mp (h s hs))
    rw [create_ico_nil a fs hi]
    exact ⟨rfl, rfl, by simp⟩

/-- Witness for C5: one run with only the 32-pixel PNG present (ICO
written from it) and one with none of the three present (warning, no
write). -/
theorem C5_ico_assembly_witness :
    ((∃ s ∈ [16, 32, 48], fsIcoW.existsFile (FAVICON_DIR ++ [pngName s]) = true)
      ∧ ∃ base rest, base :: rest = icoImages fsIcoW
          ∧ (create_ico PNG_SIZES fsIcoW).2
              = fsIcoW.write (FAVICON_DIR ++ ["favicon.ico"])
                  (.ico base [(16, 16), (32, 32), (48, 48)] rest)
          ∧ "Created favicon.ico" ∈ (create_ico PNG_SIZES fsIcoW).1)
    ∧ ((create_ico PNG_SIZES FS.empty).2 = FS.empty
        ∧ (create_ico PNG_SIZES FS.empty).2.read (FAVICON_DIR ++ ["favicon.ico"])
            = FS.empty.read (FAVICON_DIR ++ ["favicon.ico"])
        ∧ "Warning: Could not create ICO file - missing required PNG sizes"
            ∈ (create_ico PNG_SIZES FS.empty).1) :=
  ⟨⟨by decide, (C5_ico_assembly PNG_SIZES fsIcoW).1 (by decide)⟩,
    (C5_ico_assembly PNG_SIZES FS.empty).2 (by decide)⟩

/-- C9: `create_ico` never reads its `png_sizes_paths` argument — with the
same filesystem its result is identical for any two arguments; and given
two filesystems agreeing on the three fixed PNG paths it prints the same
lines and performs the same side effect (the same single `favicon.ico`
write, or no write at all). -/
theorem C9_ico_ignores_argument (a b : List (String × Nat)) (fs1 fs2 : FS) :
    create_ico a fs1 = create_ico b fs1
    ∧ ((∀ s ∈ [16, 32, 48],
          fs1.read (FAVICON_DIR ++ [pngName s]) = fs2.read (FAVICON_DIR ++ [pngName s])) →
        (create_ico a fs1).1 = (create_ico b fs2).1
        ∧ ((∃ d, (create_ico a fs1).2 = fs1.write (FAVICON_DIR ++ ["favicon.ico"]) d
              ∧ (create_ico b fs2).2 = fs2.write (FAVICON_DIR ++ ["favicon.ico"]) d)
           ∨ ((create_ico a fs1).2 = fs1 ∧ (create_ico b fs2).2 = fs2))) := by
  refine ⟨rfl, ?_⟩
  intro h
  have e16 := h 16 (by decide)
  have e32 := h 32 (by decide)
  have e48 := h 48 (by decide)
  have him : icoImages fs1 = icoImages fs2 := by
    unfold icoImages
    simp only [List.filterMap_cons, List.filterMap_nil]
    rw [e16, e32, e48]
  cases hi : icoImages fs1 with
  | nil =>
    have hi2 : icoImages fs2 = [] := him.symm.trans hi
    rw [create_ico_nil a fs1 hi, create_ico_nil b fs2 hi2]
    exact ⟨rfl, Or.inr ⟨rfl, rfl⟩⟩
  | cons img rest =>
    have hi2 : icoImages fs2 = img :: rest := him.symm.trans hi
    rw [create_ico_cons a fs1 img rest hi, create_ico_cons b fs2 img rest hi2]
    exact ⟨rfl, Or.inl ⟨.ico img [(16, 16), (32, 32), (48, 48)] rest, rfl, rfl⟩⟩

/-- Witness for C9: two filesystems differing only in an unrelated file
produce the same printed lines and the same ICO write, for two different
argument values. -/
theorem C9_ico_ignores_argument_witness :
    (∀ s ∈ [16, 32, 48],
      fsIcoW.read (FAVICON_DIR ++ [pngName s]) = fsIcoW2.read (FAVICON_DIR ++ [pngName s]))
    ∧ ((create_ico [] fsIcoW).1 = (create_ico PNG_SIZES fsIcoW2).1
        ∧ ((∃ d, (create_ico [] fsIcoW).2 = fsIcoW.write (FAVICON_DIR ++ ["favicon.ico"]) d
              ∧ (create_ico PNG_SIZES fsIcoW2).2
                  = fsIcoW2.write (FAVICON_DIR ++ ["favicon.ico"]) d)
           ∨ ((create_ico [] fsIcoW).2 = fsIcoW
              ∧ (create_ico PNG_SIZES fsIcoW2).2 = fsIcoW2))) :=
  ⟨by decide, (C9_ico_ignores_argument [] PNG_SIZES fsIcoW fsIcoW2).2 (by decide)⟩

/-- C10: whenever ICO assembly writes `favicon.ico`, the candidate PNGs
are probed in ascending size order — the first existing size `s₀` (which
is minimal among the existing ones) supplies the base image — and the
size-hint list is always the full `[(16,16),(32,32),(48,48)]` even when
fewer than three images were loaded. -/
theorem C10_ico_probe_order (a : List (String × Nat)) (fs : FS) (s₀ : Nat)
    (h : firstIcoSize fs = some s₀) :
    (∀ s ∈ [16, 32, 48], fs.existsFile (FAVICON_DIR ++ [pngName s]) = true → s₀ ≤ s)
    ∧ ∃ d rest, fs.read (FAVICON_DIR ++ [pngName s₀]) = some d
        ∧ (create_ico a fs).2.read (FAVICON_DIR ++ ["favicon.ico"])
            = some (.ico d.toBytes [(16, 16), (32, 32), (48, 48)] rest) := by
  cases h16 : fs.existsFile (FAVICON_DIR ++ [pngName 16]) with
  | true =>
    simp only [firstIcoSize, List.find?, h16, Option.some.injEq] at h
    subst h
    obtain ⟨d, hd⟩ := (FS.existsFile_eq_true_iff fs _).mp h16
    have hi : ∃ rest, icoImages fs = d.toBytes :: rest := by
      unfold icoImages
      simp only [List.filterMap_cons, hd, Option.map_some']
      exact ⟨_, rfl⟩
    obtain ⟨rest, hi⟩ := hi
    refine ⟨?_, d, rest, hd, ?_⟩
    · intro s hs _
      simp only [List.mem_cons, List.not_mem_nil, or_false] at hs
      rcases hs with rfl | rfl | rfl <;> decide
    · rw [create_ico_cons a fs _ _ hi]
      exact FS.read_write_self fs _ _
  | false =>
    have hn16 := (FS.existsFile_eq_false_iff fs _).mp h16
    cases h32 : fs.existsFile (FAVICON_DIR ++ [pngName 32]) with
    | true =>
      simp only [firstIcoSize, List.find?, h16, h32, Option.some.injEq] at h
      subst h
      obtain ⟨d, hd⟩ := (FS.existsFile_eq_true_iff fs _).mp h32
      have hi : ∃ rest, icoImages fs = d.toBytes :: rest := by
        unfold icoImages
        simp only [List.filterMap_cons, hn16, Option.map_none', hd, Option.map_some']
        exact ⟨_, rfl⟩
      obtain ⟨rest, hi⟩ := hi
      refine ⟨?_, d, rest, hd, ?_⟩
      · intro s hs hex
        simp only [List.mem_cons, List.not_mem_nil, or_false] at hs
        rcases hs with rfl | rfl | rfl
        · rw [h16] at hex
          exact absurd hex Bool.false_ne_true
        · decide
        · decide
      · rw [create_ico_cons a fs _ _ hi]
        exact FS.read_write_self fs _ _
    | false =>
      have hn32 := (FS.existsFile_eq_false_iff fs _).mp h32
      cases h48 : fs.existsFile (FAVICON_DIR ++ [pngName 48]) with
      | true =>
        simp only [firstIcoSize, List.find?, h16, h32, h48, Option.some.injEq] at h
        subst h
        obtain ⟨d, hd⟩ := (FS.existsFile_eq_true_iff fs _).mp h48
        have hi : ∃ rest, icoImages fs = d.toBytes :: rest := by
          unfold icoImages
          simp only [List.filterMap_cons, hn16, hn32, Option.map_none', hd, Option.map_some']
          exact ⟨_, rfl⟩
        obtain ⟨rest, hi⟩ := hi
        refine ⟨?_, d, rest, hd, ?_⟩
        · intro s hs hex
          simp only [List.mem_cons, List.not_mem_nil, or_false] at hs
          rcases hs with rfl | rfl | rfl
          · rw [h16] at hex
            exact absurd hex Bool.false_ne_true
          · rw [h32] at hex
            exact absurd hex Bool.false_ne_true
          · decide
        · rw [create_ico_cons a fs _ _ hi]
          exact FS.read_write_self fs _ _
      | false =>
        exfalso
        simp only [firstIcoSize, List.find?, h16, h32, h48] at h
        exact Option.noConfusion h

/-- Witness for C10: with only the 48-pixel PNG present, the ICO is
written with that PNG as the base and the full size-hint list. -/
theorem C10_ico_probe_order_witness :
    firstIcoSize fsIcoW48 = some 48
    ∧ ((∀ s ∈ [16, 32, 48],
          fsIcoW48.existsFile (FAVICON_DIR ++ [pngName s]) = true → 48 ≤ s)
        ∧ ∃ d rest, fsIcoW48.read (FAVICON_DIR ++ [pngName 48]) = some d
            ∧ (create_ico PNG_SIZES fsIcoW48).2.read (FAVICON_DIR ++ ["favicon.ico"])
                = some (.ico d.toBytes [(16, 16), (32, 32), (48, 48)] rest)) :=
  ⟨by decide, C10_ico_probe_order PNG_SIZES fsIcoW48 48 (by decide)⟩

end FaviconGen
